import Mathlib

/-!
Shallow embedding of the gz-sim Server/Runner control plane
(src/src/Server.cc) and the math Stopwatch (src/src/Stopwatch.cc).

Conventions:
- C++ machine integers that never overflow in the modelled paths are Nat;
  clock time points and durations are Int (a time point is the signed tick
  count of the steady clock).
- Fallible C++ calls returning std::optional are Option; void mutators
  return the updated state.
- External library calls (the sdf parser, path resolution, fuel download)
  are black boxes per the spec; they are passed in as an explicit
  environment of functions (SdfEnv) so theorems can quantify over or fix
  their behaviour.
- The two sleep-poll loops in Server::DownloadModels only block until
  the runner collection is non-empty and have no state effect; they are
  omitted, so the embedding describes the snapshot in which the runner
  collection is the one stored in the state.
-/

namespace GzSim

/-! ## Stopwatch (src/src/Stopwatch.cc) -/

/-- Model of std::chrono clock::time_point::min(): the smallest signed
64-bit tick count. -/
def stopwatchTimeMin : Int := -9223372036854775808

/-- State of gz::math::Stopwatch (the Implementation struct,
src/src/Stopwatch.cc lines 23-39). -/
structure Stopwatch where
  running : Bool := false
  startTime : Int := stopwatchTimeMin
  stopTime : Int := stopwatchTimeMin
  stopDuration : Int := 0
  runDuration : Int := 0
deriving DecidableEq

/-- Stopwatch::Reset (src/src/Stopwatch.cc lines 103-110). -/
def Stopwatch.reset (_w : Stopwatch) : Stopwatch :=
  { running := false
    startTime := stopwatchTimeMin
    stopTime := stopwatchTimeMin
    stopDuration := 0
    runDuration := 0 }

/-- Stopwatch::Start (src/src/Stopwatch.cc lines 48-67). The current
clock reading clock::now() is passed in as `now`. -/
def Stopwatch.start (now : Int) (doReset : Bool) (w : Stopwatch) :
    Bool × Stopwatch :=
  let w := if doReset then w.reset else w
  if w.running = false then
    let w :=
      if w.startTime ≠ w.stopTime then
        { w with stopDuration := w.stopDuration + (now - w.stopTime) }
      else w
    (true, { w with running := true, startTime := now })
  else
    (false, w)

/-- Stopwatch::Stop (src/src/Stopwatch.cc lines 76-88). -/
def Stopwatch.stop (now : Int) (w : Stopwatch) : Bool × Stopwatch :=
  if w.running then
    (true, { w with running := false, stopTime := now,
                    runDuration := w.runDuration + (now - w.startTime) })
  else
    (false, w)

/-! ## SDF data model (external sdf library, black box per the spec) -/

/-- One world of a parsed SDF description; only the name is relevant to
the control plane. -/
structure WorldDesc where
  name : String
deriving DecidableEq

/-- A parsed sdf::Root: zero or more worlds. -/
structure SdfRoot where
  worlds : List WorldDesc
deriving DecidableEq

/-- ServerConfig::SourceType (gz/sim/ServerConfig.hh). -/
inductive SourceType
  | kSdfRoot
  | kSdfString
  | kSdfFile
  | kNone
deriving DecidableEq

/-- The fields of ServerConfig read by Server.cc. -/
structure ServerConfig where
  source : SourceType := .kNone
  sdfFile : String := ""
  sdfString : String := ""
  sdfRoot : SdfRoot := ⟨[]⟩
  resourceCache : String := ""
  downloadInParallel : Bool := false
  useLogRecord : Bool := false
  updatePeriod : Option Int := none
deriving DecidableEq

/-- Environment of external (non-repository) operations used by
Server.cc: resolveSdfWorldFile, sdf::Root::Load, sdf::Root::LoadSdfString,
common::SystemPaths::FindFile and sdf::Root::WorldNamesFromFile. Each
parse call returns the reported error list together with the resulting
root; WorldNamesFromFile returns its error list and the world names. -/
structure SdfEnv where
  resolvePath : String → String
  loadFile : String → List String × SdfRoot
  loadString : String → List String × SdfRoot
  findFile : String → String
  worldNamesFromFile : String → List String × List String

/-! ## DefaultWorld (src/src/Server.cc lines 36-52)

DefaultWorld::World builds its SDF string into a function-local static,
so it is built from the argument of the first call only; every later
call returns the cached string and ignores its argument. The static is
modelled as an explicit cache value threaded through the call. -/

/-- The initializer expression of the static local `world` in
DefaultWorld::World (src/src/Server.cc lines 44-48), for a given world
name argument. -/
def DefaultWorld.build (name : String) : String :=
  "<?xml version=\x271.0\x27?>" ++
    "<sdf version=\x271.6\x27>" ++
      "<world name=\x27" ++ name ++ "\x27>" ++
      "</world>" ++
    "</sdf>"

/-- DefaultWorld::World (src/src/Server.cc lines 42-51): returns the
string and the new cache. On the first call (cache empty) the string is
built from the argument and cached; afterwards the cached string is
returned unchanged. -/
def DefaultWorld.World (name : String) (cache : Option String) :
    String × Option String :=
  match cache with
  | some w => (w, some w)
  | none => (DefaultWorld.build name, some (DefaultWorld.build name))

/-! ### String scanners used to state facts about the synthesized SDF
string (these are part of the verification development, not of the
program). -/

/-- Whether `p` is an initial segment of `l`. -/
def startsWithChars : List Char → List Char → Bool
  | [], _ => true
  | _ :: _, [] => false
  | p :: ps, c :: cs => decide (p = c) && startsWithChars ps cs

/-- Number of positions of `l` at which `pat` occurs. -/
def countOccChars (pat : List Char) : List Char → Nat
  | [] => 0
  | c :: cs =>
      (if startsWithChars pat (c :: cs) then 1 else 0) + countOccChars pat cs

/-- The suffix of `l` following the first occurrence of `pat`, if any. -/
def afterMatch (pat : List Char) : List Char → Option (List Char)
  | [] => none
  | c :: cs =>
      if startsWithChars pat (c :: cs) then some (List.drop pat.length (c :: cs))
      else afterMatch pat cs

/-- The longest initial segment of `l` not containing `stopc`. -/
def takeUntilChar (stopc : Char) : List Char → List Char
  | [] => []
  | c :: cs => if c = stopc then [] else c :: takeUntilChar stopc cs

/-- The initial segment of `l` up to the first occurrence of `pat`. -/
def takeUntilMatch (pat : List Char) : List Char → List Char
  | [] => []
  | c :: cs =>
      if startsWithChars pat (c :: cs) then []
      else c :: takeUntilMatch pat cs

/-- The number of `<world` element openings in an SDF string. -/
def worldTagCount (s : String) : Nat :=
  countOccChars ("<world".data) s.data

/-- The name attribute of the first world element of an SDF string. -/
def firstWorldName (s : String) : Option String :=
  match afterMatch ("<world name=\x27".data) s.data with
  | some rest => some ⟨takeUntilChar '\x27' rest⟩
  | none => none

/-- The content of the first world element of an SDF string. -/
def firstWorldBody (s : String) : Option String :=
  match afterMatch ("<world name=\x27".data) s.data with
  | some rest =>
      match afterMatch ("\x27>".data) rest with
      | some rest2 => some ⟨takeUntilMatch ("</world>".data) rest2⟩
      | none => none
  | none => none

/-! ## Runner state and operations

SimulationRunner.cc is not part of src/. Runner-level operations are
modelled from the spec where marked; the Server-level claims depend only
on the surface described there. Systems and entities are abstract
identifiers. -/

/-- State of one SimulationRunner as seen from the Server control
surface. -/
structure Runner where
  running : Bool := false
  paused : Bool := false
  iterations : Nat := 0
  systems : List Nat := []
  entities : List String := []
  removalQueue : List (String × Bool) := []
  worlds : List String := []
  fetchedAllIncludes : Bool := false
  blockingPausedStep : Bool := false
  updatePeriod : Option Int := none
deriving DecidableEq

/-- Modelled from the spec: SimulationRunner::SetPaused is a simple flag
setter (spec section 4.3). -/
def Runner.setPaused (p : Bool) (r : Runner) : Runner :=
  { r with paused := p }

/-- Modelled from the spec: SimulationRunner::AddSystem is rejected if
the runner is running, otherwise appends to the plugin list (spec
section 4.3). -/
def Runner.addSystem (sys : Nat) (r : Runner) : Runner :=
  if r.running then r else { r with systems := r.systems ++ [sys] }

/-- Modelled from the spec: SimulationRunner::HasEntity is a read-only
by-name query (spec section 4.3). -/
def Runner.hasEntity (name : String) (r : Runner) : Bool :=
  r.entities.contains name

/-- Modelled from the spec: SimulationRunner::EntityByName yields an
absent result for a missing name (spec section 4.3); the entity handle is
modelled as the index in the entity list. -/
def Runner.entityByName (name : String) (r : Runner) : Option Nat :=
  r.entities.findIdx? (fun e => e = name)

/-- Modelled from the spec: SimulationRunner::RequestRemoveEntity queues
the removal and reports whether the entity exists (spec section 4.3). -/
def Runner.requestRemoveEntity (name : String) (recursive : Bool)
    (r : Runner) : Bool × Runner :=
  if r.entities.contains name then
    (true, { r with removalQueue := r.removalQueue ++ [(name, recursive)] })
  else
    (false, r)

/-- Modelled from the spec: the by-handle overload of
SimulationRunner::RequestRemoveEntity (spec section 4.3); the handle is
the index in the entity list. -/
def Runner.requestRemoveEntityById (e : Nat) (recursive : Bool)
    (r : Runner) : Bool × Runner :=
  match r.entities[e]? with
  | some name =>
      (true, { r with removalQueue := r.removalQueue ++ [(name, recursive)] })
  | none => (false, r)

/-- Modelled from the spec: SimulationRunner::SetUpdatePeriod overrides
the pacing (spec section 4.3). -/
def Runner.setUpdatePeriod (d : Int) (r : Runner) : Runner :=
  { r with updatePeriod := some d }

/-- Modelled from the spec: SimulationRunner::SetNextStepAsBlockingPaused
marks the next step as a forced blocking-paused step (spec section
4.3). -/
def Runner.setNextStepAsBlockingPaused (b : Bool) (r : Runner) : Runner :=
  { r with blockingPausedStep := b }

/-- SimulationRunner::SetFetchedAllIncludes: marks the runner as having
completed asset resolution (called from src/src/Server.cc line 141). -/
def Runner.setFetchedAllIncludes (b : Bool) (r : Runner) : Runner :=
  { r with fetchedAllIncludes := b }

/-- SimulationRunner::AddWorld: records one more resolved world (called
from src/src/Server.cc line 139). -/
def Runner.addWorld (w : WorldDesc) (r : Runner) : Runner :=
  { r with worlds := r.worlds ++ [w.name] }

/-- Modelled from the spec: the effect of running the step loop with a
positive iteration bound (spec section 4.3). If a blocking-paused step is
pending, exactly one step is forced even while paused and the override is
cleared; otherwise, while paused no step executes (the loop only waits),
and while unpaused the bound is consumed, each step incrementing the
iteration counter. -/
def Runner.stepBound (n : Nat) (r : Runner) : Runner :=
  if r.blockingPausedStep then
    { r with iterations := r.iterations + 1, blockingPausedStep := false }
  else if r.paused then r
  else { r with iterations := r.iterations + n }

/-! ## Server state (ServerPrivate fields read by src/src/Server.cc) -/

/-- The ServerPrivate state as observed by Server.cc, plus bookkeeping
flags standing for the side effects of Init (thread creation,
CreateEntities, transport setup). The DefaultWorld static cache is kept
here as well. `runThreadId = none` models a default-constructed
std::thread whose id is the null thread id. -/
structure ServerState where
  config : ServerConfig := {}
  simRunners : List Runner := []
  running : Bool := false
  sigHandlerOk : Bool := true
  runThreadId : Option Nat := none
  sdfRoot : SdfRoot := ⟨[]⟩
  defaultWorldCache : Option String := none
  downloadThreadStarted : Bool := false
  entitiesCreated : Bool := false
  recordPluginAdded : Bool := false
  transportSetup : Bool := false
deriving DecidableEq

/-! ## Server world-indexed accessors (src/src/Server.cc lines 319-473)

Each C++ accessor guards with `_worldIndex < simRunners.size()` and
delegates; the guard is rendered as a match on the optional indexed
element, which is `none` exactly when the index is out of range. -/

/-- Server::SetUpdatePeriod (src/src/Server.cc lines 319-325). -/
def Server.setUpdatePeriod (d : Int) (idx : Nat) (s : ServerState) :
    ServerState :=
  match s.simRunners[idx]? with
  | some r => { s with simRunners := s.simRunners.set idx (r.setUpdatePeriod d) }
  | none => s

/-- Server::Running() (src/src/Server.cc lines 328-331). -/
def Server.runningFlag (s : ServerState) : Bool :=
  s.running

/-- Server::Running(worldIndex) (src/src/Server.cc lines 334-339). -/
def Server.runningAt (idx : Nat) (s : ServerState) : Option Bool :=
  (s.simRunners[idx]?).map Runner.running

/-- Server::SetPaused (src/src/Server.cc lines 342-352). -/
def Server.setPaused (p : Bool) (idx : Nat) (s : ServerState) :
    Bool × ServerState :=
  match s.simRunners[idx]? with
  | some r => (true, { s with simRunners := s.simRunners.set idx (r.setPaused p) })
  | none => (false, s)

/-- Server::Paused(worldIndex) (src/src/Server.cc lines 355-360). -/
def Server.pausedAt (idx : Nat) (s : ServerState) : Option Bool :=
  (s.simRunners[idx]?).map Runner.paused

/-- Server::IterationCount (src/src/Server.cc lines 363-369). -/
def Server.iterationCount (idx : Nat) (s : ServerState) : Option Nat :=
  (s.simRunners[idx]?).map Runner.iterations

/-- Server::EntityCount (src/src/Server.cc lines 372-377). -/
def Server.entityCount (idx : Nat) (s : ServerState) : Option Nat :=
  (s.simRunners[idx]?).map (fun r => r.entities.length)

/-- Server::SystemCount (src/src/Server.cc lines 380-385). -/
def Server.systemCount (idx : Nat) (s : ServerState) : Option Nat :=
  (s.simRunners[idx]?).map (fun r => r.systems.length)

/-- Server::AddSystem(SystemPluginPtr, worldIndex) (src/src/Server.cc
lines 388-407): under the run mutex, a running server rejects with
`some false`; otherwise an in-range index appends and yields `some true`,
an out-of-range index yields `none`. -/
def Server.addSystem (sys : Nat) (idx : Nat) (s : ServerState) :
    Option Bool × ServerState :=
  if s.running then (some false, s)
  else
    match s.simRunners[idx]? with
    | some r =>
        (some true, { s with simRunners := s.simRunners.set idx (r.addSystem sys) })
    | none => (none, s)

/-- Server::AddSystem(shared_ptr of System, worldIndex) (src/src/Server.cc
lines 410-427): identical control flow to the plugin overload. -/
def Server.addSystemShared (sys : Nat) (idx : Nat) (s : ServerState) :
    Option Bool × ServerState :=
  if s.running then (some false, s)
  else
    match s.simRunners[idx]? with
    | some r =>
        (some true, { s with simRunners := s.simRunners.set idx (r.addSystem sys) })
    | none => (none, s)

/-- Server::HasEntity (src/src/Server.cc lines 430-437). -/
def Server.hasEntity (name : String) (idx : Nat) (s : ServerState) : Bool :=
  match s.simRunners[idx]? with
  | some r => r.hasEntity name
  | none => false

/-- Server::EntityByName (src/src/Server.cc lines 440-447). -/
def Server.entityByName (name : String) (idx : Nat) (s : ServerState) :
    Option Nat :=
  match s.simRunners[idx]? with
  | some r => r.entityByName name
  | none => none

/-- Server::RequestRemoveEntity by name (src/src/Server.cc lines
450-460). -/
def Server.requestRemoveEntityByName (name : String) (recursive : Bool)
    (idx : Nat) (s : ServerState) : Bool × ServerState :=
  match s.simRunners[idx]? with
  | some r =>
      let (ok, r2) := r.requestRemoveEntity name recursive
      (ok, { s with simRunners := s.simRunners.set idx r2 })
  | none => (false, s)

/-- Server::RequestRemoveEntity by handle (src/src/Server.cc lines
463-473). -/
def Server.requestRemoveEntityById (e : Nat) (recursive : Bool)
    (idx : Nat) (s : ServerState) : Bool × ServerState :=
  match s.simRunners[idx]? with
  | some r =>
      let (ok, r2) := r.requestRemoveEntityById e recursive
      (ok, { s with simRunners := s.simRunners.set idx r2 })
  | none => (false, s)

/-! ## Server::Run / RunOnce (src/src/Server.cc lines 260-316) -/

/-- The loop at src/src/Server.cc lines 264-265: the requested initial
pause state is applied to every runner before anything else. -/
def markPaused (p : Bool) (s : ServerState) : ServerState :=
  { s with simRunners := s.simRunners.map (Runner.setPaused p) }

/-- Modelled from the spec: ServerPrivate::Run (ServerPrivate.cc is not
in src/). The blocking run routine raises `running`, steps every runner
with the iteration bound, and lowers `running` again before returning
(spec sections 4.4 and 5); its boolean result reports that the loop
ran. -/
def ServerPrivate.runBlocking (iterations : Nat) (s : ServerState) :
    Bool × ServerState :=
  (true, { s with running := false,
                  simRunners := s.simRunners.map (Runner.stepBound iterations) })

/-- Server::Run (src/src/Server.cc lines 260-304). The third component
counts control threads spawned by this call. The condition-variable wait
at line 299 guarantees the spawned control thread has set `running`
before Run returns (modelled from the spec, section 4.4, as
ServerPrivate.cc is not in src/). -/
def Server.run (blocking : Bool) (iterations : Nat) (p : Bool)
    (s : ServerState) : Bool × ServerState × Nat :=
  let s := markPaused p s
  if s.sigHandlerOk = false then (false, s, 0)
  else if s.running then (false, s, 0)
  else if blocking then
    match ServerPrivate.runBlocking iterations s with
    | (res, s2) => (res, s2, 0)
  else
    match s.runThreadId with
    | none => (true, { s with runThreadId := some 0, running := true }, 1)
    | some _ => (false, s, 0)

/-- Server::RunOnce (src/src/Server.cc lines 307-316). -/
def Server.runOnce (p : Bool) (s : ServerState) : Bool × ServerState × Nat :=
  let s :=
    if p then
      { s with simRunners :=
          s.simRunners.map (Runner.setNextStepAsBlockingPaused true) }
    else s
  Server.run true 1 p s

/-- Follows the wording of the spec (section 4.4): RunOnce is a convenience
wrapping Run(blocking := true, iterations := 1, paused) after first
marking, when paused, the next step of every Runner as a forced
blocking-paused step. Stated separately from `Server.runOnce` so the
wrapper claim compares a source-derived definition with a spec-derived
one. -/
def Server.runOnceSpec (p : Bool) (s : ServerState) :
    Bool × ServerState × Nat :=
  Server.run true 1 p
    (if p then
      { s with simRunners :=
          s.simRunners.map (Runner.setNextStepAsBlockingPaused true) }
     else s)

/-! ## Server::DownloadModels and Server::Init (src/src/Server.cc lines
63-254) -/

/-- The shared tail of Server::DownloadModels (src/src/Server.cc lines
160-166): a non-empty error list is logged and reported as failure. -/
def finishDownload (errs : List String) (s : ServerState) :
    Bool × ServerState :=
  if errs = [] then (true, s) else (false, s)

/-- Server::DownloadModels (src/src/Server.cc lines 63-167). The two
sleep-poll loops (lines 111-115 and 129-132) only block until the runner
collection is non-empty and are omitted; `sdf::Root::Clone` is value
copying. Note that the non-parallel file branch returns true at line 121
before the shared error check, and that the parallel branch marks every
runner fetched (lines 134-142) before the shared error check. -/
def Server.downloadModels (env : SdfEnv) (s : ServerState) :
    Bool × ServerState :=
  match s.config.source with
  | .kSdfRoot =>
      finishDownload [] { s with sdfRoot := s.config.sdfRoot }
  | .kSdfString =>
      finishDownload (env.loadString s.config.sdfString).1
        { s with sdfRoot := (env.loadString s.config.sdfString).2 }
  | .kSdfFile =>
      if env.resolvePath s.config.sdfFile = "" then (false, s)
      else
        let errs := (env.loadFile (env.resolvePath s.config.sdfFile)).1
        let root := (env.loadFile (env.resolvePath s.config.sdfFile)).2
        let s2 : ServerState := { s with sdfRoot := root }
        if s2.config.downloadInParallel = false then (true, s2)
        else if root.worlds.length = 0 then (false, s2)
        else
          finishDownload errs
            { s2 with simRunners := s2.simRunners.map (fun r =>
                Runner.setFetchedAllIncludes true
                  (root.worlds.foldl (fun acc w => Runner.addWorld w acc) r)) }
  | .kNone =>
      finishDownload
        (env.loadString (DefaultWorld.World "default" s.defaultWorldCache).1).1
        { s with
            sdfRoot :=
              (env.loadString
                (DefaultWorld.World "default" s.defaultWorldCache).1).2,
            defaultWorldCache :=
              (DefaultWorld.World "default" s.defaultWorldCache).2 }

/-- The tail of Server::Init after the error check (src/src/Server.cc
lines 230-253): log errors and return early if any; otherwise add the
record plugin when configured, create the entities and runners
(ServerPrivate::CreateEntities, not in src/, modelled from the spec as
constructing one Runner per world of the loaded description), apply the
configured update period, and set up transport. -/
def Server.initFinish (errs : List String) (s : ServerState) : ServerState :=
  if errs = [] then
    let s :=
      if s.config.useLogRecord then { s with recordPluginAdded := true } else s
    let s :=
      { s with entitiesCreated := true,
               simRunners := s.sdfRoot.worlds.map
                 (fun (w : WorldDesc) => ({ worlds := [w.name] } : Runner)) }
    let s :=
      match s.config.updatePeriod with
      | some d => Server.setUpdatePeriod d 0 s
      | none => s
    { s with transportSetup := true }
  else s

/-- Server::Init (src/src/Server.cc lines 170-254). The fuel-client and
find-callback wiring (lines 172-184) is external one-time registration
with no observable control-plane state and is omitted. In the parallel
branch the download thread is recorded as started and the provisional
single-world description is synthesized from the first world name found
by lightweight inspection; the error list of WorldNamesFromFile (the
`errors2` of the source) is discarded as in the source. -/
def Server.init (env : SdfEnv) (s : ServerState) : ServerState :=
  if s.config.downloadInParallel then
    let s := { s with downloadThreadStarted := true }
    let filePath := env.findFile s.config.sdfFile
    match (env.worldNamesFromFile filePath).2 with
    | [] => s
    | n0 :: _ =>
      Server.initFinish
        (env.loadString (DefaultWorld.World n0 s.defaultWorldCache).1).1
        { s with
            sdfRoot :=
              (env.loadString (DefaultWorld.World n0 s.defaultWorldCache).1).2,
            defaultWorldCache := (DefaultWorld.World n0 s.defaultWorldCache).2 }
  else
    if (Server.downloadModels env s).1 = false then
      (Server.downloadModels env s).2
    else
      Server.initFinish [] (Server.downloadModels env s).2

/-! ## Theorems -/

/-- C10: Stopwatch::Start with reset=false returns false and leaves every
field unchanged when the stopwatch is already running, and
Stopwatch::Stop returns false and leaves every field unchanged when the
stopwatch is not running. -/
theorem c10_stopwatch_noop_on_bad_state (w : Stopwatch) (now : Int) :
    (w.running = true → Stopwatch.start now false w = (false, w)) ∧
    (w.running = false → Stopwatch.stop now w = (false, w)) := by
  constructor
  · intro h
    simp [Stopwatch.start, h]
  · intro h
    simp [Stopwatch.stop, h]

/-- A stopwatch that is running, for the C10 witness. -/
def c10watchRunning : Stopwatch := { running := true }

/-- A freshly constructed stopwatch (not running), for the C10 witness. -/
def c10watchStopped : Stopwatch := {}

/-- Witness for C10 at concrete stopwatches and clock reading 5. -/
theorem c10_stopwatch_noop_on_bad_state_witness :
    c10watchRunning.running = true ∧
    Stopwatch.start 5 false c10watchRunning = (false, c10watchRunning) ∧
    c10watchStopped.running = false ∧
    Stopwatch.stop 5 c10watchStopped = (false, c10watchStopped) :=
  ⟨rfl, (c10_stopwatch_noop_on_bad_state c10watchRunning 5).1 rfl,
   rfl, (c10_stopwatch_noop_on_bad_state c10watchStopped 5).2 rfl⟩

/-- C3: for every world index at or beyond the number of live Runners,
every world-indexed Server accessor (Running, Paused, IterationCount,
EntityCount, SystemCount, HasEntity, EntityByName, RequestRemoveEntity in
both overloads, SetPaused, SetUpdatePeriod, AddSystem in both overloads)
returns nullopt, false, or leaves the state unchanged, and never touches
the Runner collection out of bounds. -/
theorem c3_out_of_range_accessors_safe (s : ServerState) (idx : Nat)
    (h : s.simRunners.length ≤ idx) (name : String) (e : Nat)
    (recursive : Bool) (d : Int) (sys : Nat) (p : Bool) :
    Server.runningAt idx s = none ∧
    Server.pausedAt idx s = none ∧
    Server.iterationCount idx s = none ∧
    Server.entityCount idx s = none ∧
    Server.systemCount idx s = none ∧
    Server.hasEntity name idx s = false ∧
    Server.entityByName name idx s = none ∧
    Server.requestRemoveEntityByName name recursive idx s = (false, s) ∧
    Server.requestRemoveEntityById e recursive idx s = (false, s) ∧
    Server.setPaused p idx s = (false, s) ∧
    Server.setUpdatePeriod d idx s = s ∧
    (Server.addSystem sys idx s).2 = s ∧
    ((Server.addSystem sys idx s).1 = none ∨
      (Server.addSystem sys idx s).1 = some false) ∧
    (Server.addSystemShared sys idx s).2 = s ∧
    ((Server.addSystemShared sys idx s).1 = none ∨
      (Server.addSystemShared sys idx s).1 = some false) := by
  have hnone : s.simRunners[idx]? = none := List.getElem?_eq_none h
  refine ⟨?_, ?_, ?_, ?_, ?_, ?_, ?_, ?_, ?_, ?_, ?_, ?_, ?_, ?_, ?_⟩ <;>
    first
      | simp [Server.runningAt, hnone]
      | simp [Server.pausedAt, hnone]
      | simp [Server.iterationCount, hnone]
      | simp [Server.entityCount, hnone]
      | simp [Server.systemCount, hnone]
      | simp [Server.hasEntity, hnone]
      | simp [Server.entityByName, hnone]
      | simp [Server.requestRemoveEntityByName, hnone]
      | simp [Server.requestRemoveEntityById, hnone]
      | simp [Server.setPaused, hnone]
      | simp [Server.setUpdatePeriod, hnone]
      | (cases hr : s.running <;>
          simp [Server.addSystem, Server.addSystemShared, hnone, hr])

/-- An empty server, for the C3 witness. -/
def c3state : ServerState := {}

/-- Witness for C3 at the empty server and index 0. -/
theorem c3_out_of_range_accessors_safe_witness :
    c3state.simRunners.length ≤ 0 ∧
    (Server.runningAt 0 c3state = none ∧
     Server.pausedAt 0 c3state = none ∧
     Server.iterationCount 0 c3state = none ∧
     Server.entityCount 0 c3state = none ∧
     Server.systemCount 0 c3state = none ∧
     Server.hasEntity "box" 0 c3state = false ∧
     Server.entityByName "box" 0 c3state = none ∧
     Server.requestRemoveEntityByName "box" true 0 c3state = (false, c3state) ∧
     Server.requestRemoveEntityById 2 true 0 c3state = (false, c3state) ∧
     Server.setPaused true 0 c3state = (false, c3state) ∧
     Server.setUpdatePeriod 7 0 c3state = c3state ∧
     (Server.addSystem 1 0 c3state).2 = c3state ∧
     ((Server.addSystem 1 0 c3state).1 = none ∨
       (Server.addSystem 1 0 c3state).1 = some false) ∧
     (Server.addSystemShared 1 0 c3state).2 = c3state ∧
     ((Server.addSystemShared 1 0 c3state).1 = none ∨
       (Server.addSystemShared 1 0 c3state).1 = some false)) :=
  ⟨Nat.le_refl 0,
   c3_out_of_range_accessors_safe c3state 0 (Nat.le_refl 0) "box" 2 true 7 1 true⟩

/-- C4: both Server::AddSystem overloads return false whenever the
running flag of the server is true, and return true whenever the running flag
is false and the world index is within the live Runner collection, in
which case the system is appended to the plugin list of that Runner (the
append is the spec-modelled behaviour of the non-running Runner). -/
theorem c4_addSystem_rejected_running_accepted_stopped (s : ServerState)
    (sys idx : Nat) :
    (s.running = true →
      (Server.addSystem sys idx s).1 = some false ∧
      (Server.addSystemShared sys idx s).1 = some false ∧
      (Server.addSystem sys idx s).2 = s) ∧
    (s.running = false → ∀ r, s.simRunners[idx]? = some r →
      (Server.addSystem sys idx s).1 = some true ∧
      (Server.addSystemShared sys idx s).1 = some true ∧
      (r.running = false →
        (Server.addSystem sys idx s).2.simRunners[idx]? =
          some { r with systems := r.systems ++ [sys] } ∧
        (Server.addSystemShared sys idx s).2.simRunners[idx]? =
          some { r with systems := r.systems ++ [sys] })) := by
  constructor
  · intro h
    simp [Server.addSystem, Server.addSystemShared, h]
  · intro h r hr
    have hlt : idx < s.simRunners.length := by
      by_contra hk
      rw [List.getElem?_eq_none (Nat.le_of_not_lt hk)] at hr
      exact Option.noConfusion hr
    refine ⟨?_, ?_, ?_⟩
    · simp [Server.addSystem, h, hr]
    · simp [Server.addSystemShared, h, hr]
    · intro hrr
      constructor <;>
        simp [Server.addSystem, Server.addSystemShared, h, hr,
          Runner.addSystem, hrr, List.getElem?_set_self, hlt]

/-- A stopped server with one stopped runner, for the C4 witness. -/
def c4state : ServerState := { simRunners := [{ systems := [3] }] }

/-- Witness for C4 at a stopped one-runner server (index 0, system 9). -/
theorem c4_addSystem_rejected_running_accepted_stopped_witness :
    c4state.running = false ∧
    c4state.simRunners[0]? = some { systems := [3] } ∧
    ({ systems := [3] } : Runner).running = false ∧
    (Server.addSystem 9 0 c4state).1 = some true ∧
    (Server.addSystemShared 9 0 c4state).1 = some true ∧
    (Server.addSystem 9 0 c4state).2.simRunners[0]? =
      some { ({ systems := [3] } : Runner) with systems := [3] ++ [9] } := by
  have h := (c4_addSystem_rejected_running_accepted_stopped c4state 9 0).2
    rfl { systems := [3] } rfl
  exact ⟨rfl, rfl, rfl, h.1, h.2.1, (h.2.2 rfl).1⟩

/-- A running server with one unpaused runner, for the C1
counterexample. -/
def c1state : ServerState :=
  { running := true, simRunners := [{ paused := false }] }

/-- C1 counterexample: a Server whose running flag is true rejects
Server::Run with false, yet the rejected call does change observable
state — the paused flag of the runner flips from false to true, because the
initial pause state is applied to every runner before the precondition
check. -/
theorem c1_rejected_run_modifies_paused_cex :
    c1state.running = true ∧
    (Server.run true 1 true c1state).1 = false ∧
    c1state.simRunners.map Runner.paused = [false] ∧
    (Server.run true 1 true c1state).2.1.simRunners.map Runner.paused =
      [true] := by
  decide

/-- C1 (amended): for every Server whose running flag is already true, a
further call to Server::Run returns false and spawns no control thread,
and the only state change is that the paused flag of every Runner is set
to the paused argument of the call (src/src/Server.cc lines 264-265 run before
the precondition check at lines 268-282). -/
theorem c1_rejected_run_returns_false_only_sets_paused (s : ServerState)
    (b : Bool) (it : Nat) (p : Bool) (hrun : s.running = true) :
    (Server.run b it p s).1 = false ∧
    (Server.run b it p s).2.1 = markPaused p s ∧
    (Server.run b it p s).2.2 = 0 := by
  have hpr : (markPaused p s).running = true := hrun
  have hps : (markPaused p s).sigHandlerOk = s.sigHandlerOk := rfl
  cases hsig : s.sigHandlerOk <;>
    simp [Server.run, hpr, hps, hsig]

/-- Witness for the amended C1 at the concrete running server. -/
theorem c1_rejected_run_returns_false_only_sets_paused_witness :
    c1state.running = true ∧
    ((Server.run false 3 false c1state).1 = false ∧
     (Server.run false 3 false c1state).2.1 = markPaused false c1state ∧
     (Server.run false 3 false c1state).2.2 = 0) :=
  ⟨rfl, c1_rejected_run_returns_false_only_sets_paused c1state false 3 false rfl⟩

/-- C5: from a server that is not running, has armed signal handling and
has never created a control thread, a first non-blocking Run returns true
and spawns exactly one control thread; a second non-blocking Run in
succession returns false and spawns none, so exactly one control thread
exists afterward. Moreover, on any server whose stored thread id differs
from the null thread id, a non-blocking Run spawns no thread. -/
theorem c5_second_nonblocking_run_false_single_thread
    (s t : ServerState) (it1 it2 : Nat) (p1 p2 : Bool)
    (hsig : s.sigHandlerOk = true) (hrun : s.running = false)
    (hthread : s.runThreadId = none) (ht : t.runThreadId ≠ none) :
    (Server.run false it1 p1 s).1 = true ∧
    (Server.run false it1 p1 s).2.2 = 1 ∧
    (Server.run false it2 p2 (Server.run false it1 p1 s).2.1).1 = false ∧
    (Server.run false it2 p2 (Server.run false it1 p1 s).2.1).2.2 = 0 ∧
    (Server.run false it2 p2 t).2.2 = 0 := by
  have h1 : Server.run false it1 p1 s =
      (true, { markPaused p1 s with runThreadId := some 0, running := true },
        1) := by
    have hps : (markPaused p1 s).sigHandlerOk = s.sigHandlerOk := rfl
    have hpr : (markPaused p1 s).running = s.running := rfl
    have hpt : (markPaused p1 s).runThreadId = s.runThreadId := rfl
    simp [Server.run, hps, hpr, hpt, hsig, hrun, hthread]
  refine ⟨by rw [h1], by rw [h1], ?_, ?_, ?_⟩
  · rw [h1]
    simp [Server.run, markPaused]
  · rw [h1]
    simp [Server.run, markPaused]
  · have hpt : (markPaused p2 t).runThreadId = t.runThreadId := rfl
    rcases hc : t.runThreadId with _ | tid
    · exact absurd hc ht
    · cases hts : t.sigHandlerOk <;> cases htr : (markPaused p2 t).running <;>
        simp [Server.run, hpt, hc, hts, htr]

/-- A fresh idle server, and a server whose control thread already
exists, for the C5 witness. -/
def c5state : ServerState := { simRunners := [{}] }

/-- A server with a live control thread, for the C5 witness. -/
def c5stateThreaded : ServerState := { runThreadId := some 4 }

/-- Witness for C5 at the concrete idle server. -/
theorem c5_second_nonblocking_run_false_single_thread_witness :
    c5state.sigHandlerOk = true ∧ c5state.running = false ∧
    c5state.runThreadId = none ∧ c5stateThreaded.runThreadId ≠ none ∧
    ((Server.run false 0 false c5state).1 = true ∧
     (Server.run false 0 false c5state).2.2 = 1 ∧
     (Server.run false 0 true (Server.run false 0 false c5state).2.1).1 =
       false ∧
     (Server.run false 0 true (Server.run false 0 false c5state).2.1).2.2 =
       0 ∧
     (Server.run false 0 true c5stateThreaded).2.2 = 0) :=
  ⟨rfl, rfl, rfl, by decide,
   c5_second_nonblocking_run_false_single_thread c5state c5stateThreaded
     0 0 false true rfl rfl rfl (by decide)⟩

/-- C6: Server::RunOnce(p) coincides with the description in the spec —
first mark, when p is true, the next step of every Runner as a forced
blocking-paused step, then Run(blocking := true, iterations := 1, p) —
and, for a startable server, RunOnce(true) advances the iteration count
of every Runner by exactly 1 while the paused flag of every Runner remains
true in the final state. -/
theorem c6_runOnce_wraps_run_and_steps_once (s : ServerState) (p : Bool)
    (hsig : s.sigHandlerOk = true) (hrun : s.running = false) :
    Server.runOnce p s = Server.runOnceSpec p s ∧
    (Server.runOnce true s).2.1.simRunners.map Runner.iterations =
      s.simRunners.map (fun r => r.iterations + 1) ∧
    (Server.runOnce true s).2.1.simRunners.map Runner.paused =
      s.simRunners.map (fun _ => true) := by
  refine ⟨rfl, ?_, ?_⟩ <;>
    simp [Server.runOnce, Server.run, markPaused, ServerPrivate.runBlocking,
      hsig, hrun, Runner.setNextStepAsBlockingPaused, Runner.setPaused,
      Runner.stepBound, List.map_map, Function.comp_def]

/-- A startable server with one runner at iteration 41, for the C6
witness. -/
def c6state : ServerState := { simRunners := [{ iterations := 41 }] }

/-- Witness for C6 at the concrete startable server. -/
theorem c6_runOnce_wraps_run_and_steps_once_witness :
    c6state.sigHandlerOk = true ∧ c6state.running = false ∧
    (Server.runOnce true c6state = Server.runOnceSpec true c6state ∧
     (Server.runOnce true c6state).2.1.simRunners.map Runner.iterations =
       c6state.simRunners.map (fun r => r.iterations + 1) ∧
     (Server.runOnce true c6state).2.1.simRunners.map Runner.paused =
       c6state.simRunners.map (fun _ => true)) :=
  ⟨rfl, rfl, c6_runOnce_wraps_run_and_steps_once c6state true rfl rfl⟩

/-- Environment for the C2 failing input: the world file resolves, and
parsing it reports a non-empty error list while still yielding a root. -/
def c2env : SdfEnv :=
  { resolvePath := fun _ => "shapes.sdf"
    loadFile := fun _ => (["parse error"], ⟨[⟨"shapes"⟩]⟩)
    loadString := fun _ => ([], ⟨[]⟩)
    findFile := fun _ => ""
    worldNamesFromFile := fun _ => ([], []) }

/-- Server state for the C2 failing input: a file source with parallel
downloading disabled. -/
def c2state : ServerState :=
  { config := { source := .kSdfFile, sdfFile := "shapes.sdf" } }

/-- C2: evaluation at the failing input. With a file source, parallel
downloading disabled, a resolvable path and a parse that reports a
non-empty error list, Server::DownloadModels returns true (the early
return at src/src/Server.cc line 121 skips the shared error check at
lines 160-165) and Server::Init goes on to call CreateEntities — the code
diverges from the claim, which requires DownloadModels to return false
and Init to return before CreateEntities. -/
theorem c2_nonparallel_file_parse_errors_ignored :
    c2state.config.downloadInParallel = false ∧
    (c2env.loadFile (c2env.resolvePath c2state.config.sdfFile)).1 ≠ [] ∧
    (Server.downloadModels c2env c2state).1 = true ∧
    (Server.init c2env c2state).entitiesCreated = true := by
  decide

/-- C9: DefaultWorld::World builds its SDF string into a function-local
static, so every call after the first returns the string built from the
world-name argument of the first call; the argument of the later call is ignored
and the cache is unchanged. -/
theorem c9_default_world_static_caching (n1 n2 : String) :
    (DefaultWorld.World n2 (DefaultWorld.World n1 none).2).1 =
      DefaultWorld.build n1 ∧
    (DefaultWorld.World n2 (DefaultWorld.World n1 none).2).2 =
      some (DefaultWorld.build n1) :=
  ⟨rfl, rfl⟩

/-- Environment for the C7 counterexample: the parser stand-in reads the
name attribute of the first world element of the string it is given. -/
def c7env : SdfEnv :=
  { resolvePath := fun _ => ""
    loadFile := fun _ => ([], ⟨[]⟩)
    loadString := fun w => ([], ⟨[⟨(firstWorldName w).getD ""⟩]⟩)
    findFile := fun _ => ""
    worldNamesFromFile := fun _ => ([], []) }

/-- A kNone server in a process where DefaultWorld::World was already
called with the name "provisional", for the C7 counterexample. -/
def c7state : ServerState :=
  { config := { source := .kNone },
    defaultWorldCache := some (DefaultWorld.build "provisional") }

/-- C7 counterexample: for a kNone ServerConfig in a process where
DefaultWorld::World has already been invoked with a different name, the
string handed to the parser names the world "provisional", not
"default", and the single world of the resolved description is named
"provisional" — refuting the claim that the kNone source always produces
a world named "default". -/
theorem c7_cached_world_name_cex :
    c7state.config.source = SourceType.kNone ∧
    firstWorldName (DefaultWorld.World "default" c7state.defaultWorldCache).1 =
      some "provisional" ∧
    (Server.downloadModels c7env c7state).1 = true ∧
    (Server.downloadModels c7env c7state).2.sdfRoot =
      ⟨[⟨"provisional"⟩]⟩ := by
  decide

/-- C7 (amended): for a kNone ServerConfig, when DefaultWorld::World has
not yet been called in the process (empty static cache), the synthesized
SDF string contains exactly one world element, named "default", with an
empty body (no entities declared), and DownloadModels succeeds provided
the external parser accepts that minimal world. -/
theorem c7_kNone_fresh_default_world (env : SdfEnv) (s : ServerState)
    (hsrc : s.config.source = SourceType.kNone)
    (hcache : s.defaultWorldCache = none)
    (hparse : (env.loadString (DefaultWorld.build "default")).1 = []) :
    (Server.downloadModels env s).1 = true ∧
    worldTagCount (DefaultWorld.World "default" s.defaultWorldCache).1 = 1 ∧
    firstWorldName (DefaultWorld.World "default" s.defaultWorldCache).1 =
      some "default" ∧
    firstWorldBody (DefaultWorld.World "default" s.defaultWorldCache).1 =
      some "" := by
  rw [hcache]
  refine ⟨?_, by decide, by decide, by decide⟩
  simp [Server.downloadModels, hsrc, hcache, DefaultWorld.World,
    finishDownload, hparse]

/-- Environment for the C7 witness: a parser that accepts everything. -/
def c7wenv : SdfEnv :=
  { resolvePath := fun _ => ""
    loadFile := fun _ => ([], ⟨[]⟩)
    loadString := fun _ => ([], ⟨[⟨"default"⟩]⟩)
    findFile := fun _ => ""
    worldNamesFromFile := fun _ => ([], []) }

/-- A fresh kNone server, for the C7 witness. -/
def c7wstate : ServerState := { config := { source := .kNone } }

/-- Witness for the amended C7 at a fresh kNone server. -/
theorem c7_kNone_fresh_default_world_witness :
    c7wstate.config.source = SourceType.kNone ∧
    c7wstate.defaultWorldCache = none ∧
    (c7wenv.loadString (DefaultWorld.build "default")).1 = [] ∧
    ((Server.downloadModels c7wenv c7wstate).1 = true ∧
     worldTagCount (DefaultWorld.World "default" c7wstate.defaultWorldCache).1 =
       1 ∧
     firstWorldName
       (DefaultWorld.World "default" c7wstate.defaultWorldCache).1 =
       some "default" ∧
     firstWorldBody
       (DefaultWorld.World "default" c7wstate.defaultWorldCache).1 =
       some "") :=
  ⟨rfl, rfl, rfl, c7_kNone_fresh_default_world c7wenv c7wstate rfl rfl rfl⟩

/-- Folding AddWorld over a runner never changes its running flag. -/
theorem addWorld_foldl_running (ws : List WorldDesc) (r : Runner) :
    (ws.foldl (fun acc w => Runner.addWorld w acc) r).running = r.running := by
  induction ws generalizing r with
  | nil => rfl
  | cons w ws ih =>
      simp only [List.foldl_cons]
      rw [ih]
      rfl

/-- Environment for the C8 counterexample: the path resolves and the
load reports errors while still yielding one world. -/
def c8env : SdfEnv :=
  { resolvePath := fun _ => "multi.sdf"
    loadFile := fun _ => (["bad include"], ⟨[⟨"w1"⟩]⟩)
    loadString := fun _ => ([], ⟨[]⟩)
    findFile := fun _ => ""
    worldNamesFromFile := fun _ => ([], []) }

/-- A parallel-download file server with one unmarked runner, for the C8
counterexample. -/
def c8state : ServerState :=
  { config := { source := .kSdfFile, sdfFile := "multi.sdf",
                downloadInParallel := true },
    simRunners := [{}] }

/-- C8 counterexample: with parallel downloading enabled, a resolvable
path and a load that reports errors while yielding one world, the
background task does return failure, but only after calling
SetFetchedAllIncludes(true) on the existing runner (src/src/Server.cc
lines 134-142 precede the error check at lines 160-165) — refuting the
claim that SetFetchedAllIncludes(true) is never called on any failure. -/
theorem c8_parse_errors_mark_fetched_cex :
    c8state.config.downloadInParallel = true ∧
    (c8env.loadFile (c8env.resolvePath c8state.config.sdfFile)).1 ≠ [] ∧
    (Server.downloadModels c8env c8state).1 = false ∧
    c8state.simRunners.map Runner.fetchedAllIncludes = [false] ∧
    (Server.downloadModels c8env c8state).2.simRunners.map
        Runner.fetchedAllIncludes = [true] := by
  decide

/-- C8 (amended): with parallel downloading enabled and a file source,
an unresolvable path or a world-less load makes DownloadModels return
failure without marking any Runner (and without touching any Runner at
all in the unresolvable case); when the parser reports errors but at
least one world was loaded, DownloadModels still returns failure, but
only after marking every Runner as having completed asset resolution.
In every failure case the running flags of the Runners are untouched, so the
failure is non-fatal to already-started Runners. -/
theorem c8_parallel_failure_modes (env : SdfEnv) (s : ServerState)
    (hpar : s.config.downloadInParallel = true)
    (hsrc : s.config.source = SourceType.kSdfFile) :
    (env.resolvePath s.config.sdfFile = "" →
      Server.downloadModels env s = (false, s)) ∧
    (env.resolvePath s.config.sdfFile ≠ "" →
     (env.loadFile (env.resolvePath s.config.sdfFile)).2.worlds = [] →
      (Server.downloadModels env s).1 = false ∧
      (Server.downloadModels env s).2.simRunners.map
          Runner.fetchedAllIncludes =
        s.simRunners.map Runner.fetchedAllIncludes ∧
      (Server.downloadModels env s).2.simRunners.map Runner.running =
        s.simRunners.map Runner.running) ∧
    (env.resolvePath s.config.sdfFile ≠ "" →
     (env.loadFile (env.resolvePath s.config.sdfFile)).2.worlds ≠ [] →
     (env.loadFile (env.resolvePath s.config.sdfFile)).1 ≠ [] →
      (Server.downloadModels env s).1 = false ∧
      (Server.downloadModels env s).2.simRunners.map
          Runner.fetchedAllIncludes =
        s.simRunners.map (fun _ => true) ∧
      (Server.downloadModels env s).2.simRunners.map Runner.running =
        s.simRunners.map Runner.running) := by
  refine ⟨?_, ?_, ?_⟩
  · intro hp
    simp [Server.downloadModels, hsrc, hp]
  · intro hp hw
    simp [Server.downloadModels, hsrc, hp, hpar, hw]
  · intro hp hw he
    have hlen : (env.loadFile (env.resolvePath s.config.sdfFile)).2.worlds.length ≠ 0 := by
      simpa [List.length_eq_zero] using hw
    simp [Server.downloadModels, hsrc, hp, hpar, hlen, finishDownload, he,
      List.map_map, Function.comp_def, Runner.setFetchedAllIncludes,
      addWorld_foldl_running]

/-- Environment for the C8 witness: the world file path does not
resolve. -/
def c8wenv : SdfEnv :=
  { resolvePath := fun _ => ""
    loadFile := fun _ => ([], ⟨[]⟩)
    loadString := fun _ => ([], ⟨[]⟩)
    findFile := fun _ => ""
    worldNamesFromFile := fun _ => ([], []) }

/-- A parallel-download file server, for the C8 witness. -/
def c8wstate : ServerState :=
  { config := { source := .kSdfFile, sdfFile := "missing.sdf",
                downloadInParallel := true } }

/-- Witness for the amended C8 at an unresolvable path. -/
theorem c8_parallel_failure_modes_witness :
    c8wstate.config.downloadInParallel = true ∧
    c8wstate.config.source = SourceType.kSdfFile ∧
    c8wenv.resolvePath c8wstate.config.sdfFile = "" ∧
    Server.downloadModels c8wenv c8wstate = (false, c8wstate) :=
  ⟨rfl, rfl, rfl,
   (c8_parallel_failure_modes c8wenv c8wstate rfl rfl).1 rfl⟩

end GzSim
